import Mathlib

/-!
Shallow embedding of `src/server.js` (an Express HTTP server with five
travel endpoints) and proofs about the behaviour of its request handlers.

Conventions of the embedding:
* A JSON string field that may be absent is an `Option String`
  (`none` = the property is missing / `undefined`).
* JavaScript truthiness on such a value (`!x` guards) is `jsTruthy`:
  `none` and `some ""` are falsy, every other string is truthy.
* Each call `Math.floor(Math.random() * k)` consumes one draw from a
  random source `rho : Nat → Nat`; the i-th call in a handler body is
  modelled as `rho i % k`, which ranges over exactly 0 .. k-1 as the
  JavaScript expression does.
* A handler that may perform an outbound HTTP call returns a step value:
  either an immediate response or a `fetch...` step describing the call.
  Handlers that never call out return a response directly.
* `res.status(400).json(body)` / `res.status(500).json(body)` become
  `respond 400 body` / `respond 500 body`; `res.json(body)` (status 200)
  becomes the `ok` constructor of the result type of the handler.
-/

/-- JavaScript truthiness of a possibly-absent string:
`undefined` and `""` are falsy. -/
def jsTruthy : Option String → Bool
  | none => false
  | some s => !s.isEmpty

/-- JavaScript `haystack.includes(needle)` on strings: substring test. -/
def jsIncludes (haystack needle : String) : Bool :=
  decide (needle.toList <:+: haystack.toList)

/-- JavaScript `a || b` where `a` is a possibly-absent string and `b` a
string default: the default is taken when `a` is `undefined` or `""`. -/
def jsOrElse (a : Option String) (b : String) : String :=
  match a with
  | none => b
  | some s => if s.isEmpty then b else s

/-- JavaScript `a || null` where `a` is a possibly-absent string: yields
`null` when `a` is `undefined` or `""`. -/
def jsOrNull (a : Option String) : Option String :=
  match a with
  | none => none
  | some s => if s.isEmpty then none else s

/-- Body of an error response: `error` is always present, `mensaje`
(the echoed underlying message) only on some 500 responses
(`none` models a JSON object without a `mensaje` property). -/
structure ErrorRespuesta where
  error : String
  mensaje : Option String
  deriving DecidableEq, Repr

/-! ## `GET /wiki` (lines 129-152 of server.js) -/

/-- Fields of the upstream Wikipedia summary used by the handler.
`content_urls` and its `desktop` level may be absent (the handler reads
them with optional chaining); `thumbnail` may be absent. -/
structure WikiDesktop where
  page : String
  deriving DecidableEq, Repr

structure WikiContentUrls where
  desktop : Option WikiDesktop
  deriving DecidableEq, Repr

structure WikiThumbnail where
  source : String
  deriving DecidableEq, Repr

structure WikiData where
  title : String
  extract : String
  content_urls : Option WikiContentUrls
  thumbnail : Option WikiThumbnail
  deriving DecidableEq, Repr

/-- Success payload of `GET /wiki`. -/
structure WikiSummary where
  titulo : String
  extracto : String
  url : String
  imagen : Option String
  deriving DecidableEq, Repr

/-- What the `/wiki` handler does before any outbound call: either an
immediate error response or the outbound summary lookup for `ciudad`. -/
inductive WikiStep where
  | respond (status : Nat) (body : ErrorRespuesta)
  | fetchSummary (ciudad : String)
  deriving DecidableEq, Repr

/-- Route handler for GET /wiki, validation and dispatch (lines 131-137). -/
def wikiHandler (ciudad : Option String) : WikiStep :=
  if !jsTruthy ciudad then
    .respond 400 ⟨"Se requiere el parámetro ciudad", none⟩
  else
    .fetchSummary (ciudad.getD "")

/-- Mapping of a successful upstream summary to the response body
(lines 139-144): `url` is the optional chain content_urls, desktop, page
with the empty string as JavaScript falsy default,
`imagen` is `thumbnail?.source || null`. -/
def wikiOnSuccess (data : WikiData) : WikiSummary :=
  { titulo := data.title
    extracto := data.extract
    url := jsOrElse (data.content_urls.bind fun cu => cu.desktop.map fun d => d.page) ""
    imagen := jsOrNull (data.thumbnail.map fun t => t.source) }

/-- Catch block of `/wiki` (lines 145-151): 500 echoing `error.message`. -/
def wikiOnError (m : String) : WikiStep :=
  .respond 500 ⟨"Error al consultar Wikipedia", some m⟩

/-! ## `GET /clima` (lines 155-186) -/

/-- What the `/clima` handler does before any outbound call. -/
inductive ClimaStep where
  | respond (status : Nat) (body : ErrorRespuesta)
  | fetchWeather (ciudad : String) (apiKey : String)
  deriving DecidableEq, Repr

/-- Route handler for GET /clima, validation, credential check and dispatch
(lines 157-168).  `apiKey` is `process.env.OPENWEATHER_API_KEY`
(absent or empty is falsy).  Note the missing-credential 500 body
carries only an `error` field, no `mensaje`. -/
def climaHandler (ciudad apiKey : Option String) : ClimaStep :=
  if !jsTruthy ciudad then
    .respond 400 ⟨"Se requiere el parámetro ciudad", none⟩
  else if !jsTruthy apiKey then
    .respond 500 ⟨"API key de OpenWeather no configurada", none⟩
  else
    .fetchWeather (ciudad.getD "") (apiKey.getD "")

/-- Catch block of `/clima` (lines 179-185): 500 echoing `error.message`. -/
def climaOnError (m : String) : ClimaStep :=
  .respond 500 ⟨"Error al consultar el clima", some m⟩

/-- The `mensaje` field carried by a `/clima` step, when it is a response. -/
def climaStepMensaje : ClimaStep → Option String
  | .respond _ b => b.mensaje
  | .fetchWeather _ _ => none

/-! ## `POST /vuelos` (lines 189-251) -/

/-- One synthetic flight offer (object shape of lines 202-240). -/
structure Vuelo where
  aerolinea : String
  numeroVuelo : String
  origen : String
  destino : String
  fecha : String
  horaSalida : String
  horaLlegada : String
  duracion : String
  precio : Nat
  moneda : String
  escalas : Nat
  deriving DecidableEq, Repr

/-- Result of the `/vuelos` handler: an error response or the 200 body. -/
inductive VuelosResult where
  | respond (status : Nat) (body : ErrorRespuesta)
  | ok (vuelos : List Vuelo)
  deriving DecidableEq, Repr

/-- Route handler for POST /vuelos (lines 191-243).  `rho` is the random source;
the six `Math.floor(Math.random() * k)` calls evaluate in source order:
flight-number suffix then price for each of the three offers. -/
def vuelosHandler (origen destino fecha : Option String) (rho : Nat → Nat) :
    VuelosResult :=
  if !jsTruthy origen || !jsTruthy destino || !jsTruthy fecha then
    .respond 400 ⟨"Se requieren los parámetros origen, destino y fecha", none⟩
  else
    let o := origen.getD ""
    let d := destino.getD ""
    let f := fecha.getD ""
    .ok
      [ { aerolinea := "Avianca"
          numeroVuelo := "AV" ++ toString (rho 0 % 1000)
          origen := o, destino := d, fecha := f
          horaSalida := "08:30", horaLlegada := "10:45", duracion := "2h 15m"
          precio := rho 1 % 300 + 200, moneda := "USD", escalas := 0 },
        { aerolinea := "LATAM"
          numeroVuelo := "LA" ++ toString (rho 2 % 1000)
          origen := o, destino := d, fecha := f
          horaSalida := "12:15", horaLlegada := "14:50", duracion := "2h 35m"
          precio := rho 3 % 300 + 180, moneda := "USD", escalas := 1 },
        { aerolinea := "Copa Airlines"
          numeroVuelo := "CM" ++ toString (rho 4 % 1000)
          origen := o, destino := d, fecha := f
          horaSalida := "16:40", horaLlegada := "19:10", duracion := "2h 30m"
          precio := rho 5 % 300 + 220, moneda := "USD", escalas := 0 } ]

/-- Catch block of `/vuelos` (lines 244-250). -/
def vuelosOnError (m : String) : VuelosResult :=
  .respond 500 ⟨"Error al buscar vuelos", some m⟩

/-! ## `GET /hospedaje` (lines 254-318) -/

/-- One synthetic lodging offer (object shape of lines 266-307). -/
structure Hospedaje where
  nombre : String
  tipo : String
  ubicacion : String
  precio : Nat
  moneda : String
  porNoche : Bool
  habitaciones : Nat
  banos : Nat
  capacidad : Nat
  calificacion : ℚ
  opiniones : Nat
  imagen : String
  deriving DecidableEq, Repr

/-- Result of the `/hospedaje` handler. -/
inductive HospedajeResult where
  | respond (status : Nat) (body : ErrorRespuesta)
  | ok (hospedajes : List Hospedaje)
  deriving DecidableEq, Repr

/-- Route handler for GET /hospedaje (lines 256-310).  `fechaEntrada` and
`fechaSalida` are read from the query but never used.  The three
`Math.floor(Math.random() * k)` calls are the three prices in order. -/
def hospedajeHandler (ciudad fechaEntrada fechaSalida : Option String)
    (rho : Nat → Nat) : HospedajeResult :=
  if !jsTruthy ciudad then
    .respond 400 ⟨"Se requiere el parámetro ciudad", none⟩
  else
    let c := ciudad.getD ""
    .ok
      [ { nombre := "Apartamento Céntrico", tipo := "Apartamento entero"
          ubicacion := "Centro de " ++ c
          precio := rho 0 % 100 + 50, moneda := "USD", porNoche := true
          habitaciones := 2, banos := 1, capacidad := 4
          calificacion := 4.8, opiniones := 123
          imagen := "https://via.placeholder.com/300x200?text=Apartamento" },
        { nombre := "Hotel Boutique", tipo := "Habitación de hotel"
          ubicacion := "Zona turística de " ++ c
          precio := rho 1 % 150 + 80, moneda := "USD", porNoche := true
          habitaciones := 1, banos := 1, capacidad := 2
          calificacion := 4.6, opiniones := 87
          imagen := "https://via.placeholder.com/300x200?text=Hotel" },
        { nombre := "Casa Familiar", tipo := "Casa entera"
          ubicacion := "Zona residencial de " ++ c
          precio := rho 2 % 200 + 120, moneda := "USD", porNoche := true
          habitaciones := 3, banos := 2, capacidad := 6
          calificacion := 4.9, opiniones := 45
          imagen := "https://via.placeholder.com/300x200?text=Casa" } ]

/-- Catch block of `/hospedaje` (lines 311-317). -/
def hospedajeOnError (m : String) : HospedajeResult :=
  .respond 500 ⟨"Error al buscar hospedaje", some m⟩

/-! ## `POST /consejos` (lines 321-393) -/

/-- Success payload of `/consejos` (lines 379-385). -/
structure ConsejosPayload where
  destino : String
  tipoViaje : String
  presupuesto : String
  recomendaciones : List String
  consejoPresupuesto : String
  deriving DecidableEq, Repr

/-- Result of the `/consejos` handler. -/
inductive ConsejosResult where
  | respond (status : Nat) (body : ErrorRespuesta)
  | ok (payload : ConsejosPayload)
  deriving DecidableEq, Repr

/-- Route handler for POST /consejos (lines 321-385).  Destructuring defaults
(vacaciones for `tipoViaje`, medio for `presupuesto`) apply when the
body property is absent.  The handler has access to the process random
source `rho` like the others but never consumes it. -/
def consejosHandler (destinoQ tipoViajeQ presupuestoQ : Option String)
    (rho : Nat → Nat) : ConsejosResult :=
  let tipoViaje := tipoViajeQ.getD "vacaciones"
  let presupuesto := presupuestoQ.getD "medio"
  if !jsTruthy destinoQ then
    .respond 400 ⟨"Se requiere el parámetro destino", none⟩
  else
    let destino := destinoQ.getD ""
    let recomendaciones :=
      if jsIncludes tipoViaje.toLower "negocio" then
        [ "Hoteles de negocios cercanos al centro financiero de " ++ destino,
          "Restaurantes con ambiente tranquilo para reuniones en " ++ destino,
          "Servicios de taxi o transporte ejecutivo en " ++ destino,
          "Espacios de coworking populares en " ++ destino,
          "Conexiones Wi-Fi confiables en " ++ destino ]
      else if jsIncludes tipoViaje.toLower "aventura" then
        [ "Rutas de senderismo populares cerca de " ++ destino,
          "Empresas de deportes extremos en " ++ destino,
          "Parques naturales que debes visitar en " ++ destino,
          "Equipamiento necesario para actividades al aire libre en " ++ destino,
          "Hospedajes con acceso rápido a actividades de aventura en " ++ destino ]
      else if jsIncludes tipoViaje.toLower "cultural" then
        [ "Museos imperdibles en " ++ destino,
          "Sitios históricos para visitar en " ++ destino,
          "Eventos culturales programados en " ++ destino,
          "Tours guiados por el patrimonio de " ++ destino,
          "Gastronomía típica que debes probar en " ++ destino ]
      else
        [ "Atracciones turísticas principales de " ++ destino,
          "Mejores playas o parques en " ++ destino,
          "Opciones de entretenimiento familiar en " ++ destino,
          "Restaurantes mejor valorados de " ++ destino,
          "Consejos de seguridad para turistas en " ++ destino ]
    let consejoPresupuesto :=
      if presupuesto.toLower == "bajo" then
        "Para ahorrar dinero en " ++ destino ++
          ", considera usar transporte público, comer en mercados locales y buscar actividades gratuitas como parques y museos con entrada libre."
      else if presupuesto.toLower == "alto" then
        "Con un presupuesto alto en " ++ destino ++
          ", puedes disfrutar de hoteles boutique de lujo, restaurantes exclusivos y excursiones privadas personalizadas."
      else
        "Con un presupuesto medio en " ++ destino ++
          ", equilibra experiencias premium con opciones más económicas. Considera un hotel de 3-4 estrellas y mezcla restaurantes de diferentes categorías."
    .ok ⟨destino, tipoViaje, presupuesto, recomendaciones, consejoPresupuesto⟩

/-- Catch block of `/consejos` (lines 386-392). -/
def consejosOnError (m : String) : ConsejosResult :=
  .respond 500 ⟨"Error al generar recomendaciones", some m⟩

/-! ## Spec-side definitions (refinement targets for the claims) -/

/-- Business-trip recommendation template of the spec (five strings,
`destino` interpolated, fixed order). -/
def plantillaNegocio (destino : String) : List String :=
  [ "Hoteles de negocios cercanos al centro financiero de " ++ destino,
    "Restaurantes con ambiente tranquilo para reuniones en " ++ destino,
    "Servicios de taxi o transporte ejecutivo en " ++ destino,
    "Espacios de coworking populares en " ++ destino,
    "Conexiones Wi-Fi confiables en " ++ destino ]

/-- Adventure recommendation template of the spec. -/
def plantillaAventura (destino : String) : List String :=
  [ "Rutas de senderismo populares cerca de " ++ destino,
    "Empresas de deportes extremos en " ++ destino,
    "Parques naturales que debes visitar en " ++ destino,
    "Equipamiento necesario para actividades al aire libre en " ++ destino,
    "Hospedajes con acceso rápido a actividades de aventura en " ++ destino ]

/-- Cultural recommendation template of the spec. -/
def plantillaCultural (destino : String) : List String :=
  [ "Museos imperdibles en " ++ destino,
    "Sitios históricos para visitar en " ++ destino,
    "Eventos culturales programados en " ++ destino,
    "Tours guiados por el patrimonio de " ++ destino,
    "Gastronomía típica que debes probar en " ++ destino ]

/-- General-vacation recommendation template of the spec. -/
def plantillaVacaciones (destino : String) : List String :=
  [ "Atracciones turísticas principales de " ++ destino,
    "Mejores playas o parques en " ++ destino,
    "Opciones de entretenimiento familiar en " ++ destino,
    "Restaurantes mejor valorados de " ++ destino,
    "Consejos de seguridad para turistas en " ++ destino ]

/-- Spec-side template selection of claim C1: case-insensitive substring
match against `tipoViaje`, tested in priority order business, adventure,
cultural; first match wins; no match selects the general template. -/
def specRecomendaciones (tipoViaje destino : String) : List String :=
  if jsIncludes tipoViaje.toLower "negocio" then plantillaNegocio destino
  else if jsIncludes tipoViaje.toLower "aventura" then plantillaAventura destino
  else if jsIncludes tipoViaje.toLower "cultural" then plantillaCultural destino
  else plantillaVacaciones destino

/-- Low-budget note template of the spec. -/
def notaBajo (destino : String) : String :=
  "Para ahorrar dinero en " ++ destino ++
    ", considera usar transporte público, comer en mercados locales y buscar actividades gratuitas como parques y museos con entrada libre."

/-- High-budget note template of the spec. -/
def notaAlto (destino : String) : String :=
  "Con un presupuesto alto en " ++ destino ++
    ", puedes disfrutar de hoteles boutique de lujo, restaurantes exclusivos y excursiones privadas personalizadas."

/-- Medium-budget (default) note template of the spec. -/
def notaMedio (destino : String) : String :=
  "Con un presupuesto medio en " ++ destino ++
    ", equilibra experiencias premium con opciones más económicas. Considera un hotel de 3-4 estrellas y mezcla restaurantes de diferentes categorías."

/-- Spec-side budget-note selection of claim C5: exact case-insensitive
match of `presupuesto`; "bajo" and "alto" select their templates, every
other value selects the medium template. -/
def specConsejoPresupuesto (presupuesto destino : String) : String :=
  if presupuesto.toLower == "bajo" then notaBajo destino
  else if presupuesto.toLower == "alto" then notaAlto destino
  else notaMedio destino

/-- The reading claim C9 gives of the `/wiki` success mapping: `url` is the
desktop page URL with `""` when absent, `imagen` is the thumbnail source
with `null` only when the thumbnail is absent. -/
def specWikiSummaryReclamo (data : WikiData) : WikiSummary :=
  { titulo := data.title
    extracto := data.extract
    url := (data.content_urls.bind fun cu => cu.desktop.map fun dd => dd.page).getD ""
    imagen := data.thumbnail.map fun t => t.source }

/-- Amended `/wiki` success mapping: as claim C9, except `imagen` is also
`null` when the source URL of the thumbnail is the empty string (JavaScript
`|| null` treats the empty string as falsy). -/
def specWikiSummaryCorregida (data : WikiData) : WikiSummary :=
  { titulo := data.title
    extracto := data.extract
    url := (data.content_urls.bind fun cu => cu.desktop.map fun dd => dd.page).getD ""
    imagen := match data.thumbnail with
      | none => none
      | some t => if t.source = "" then none else some t.source }

/-! ## Projections used to state the claims -/

/-- The recommendation list of a `/consejos` result, when it is a 200. -/
def consejosRecs : ConsejosResult → Option (List String)
  | .ok p => some p.recomendaciones
  | .respond _ _ => none

/-- The budget note of a `/consejos` result, when it is a 200. -/
def consejosNota : ConsejosResult → Option String
  | .ok p => some p.consejoPresupuesto
  | .respond _ _ => none

/-- The prices of a `/vuelos` result, when it is a 200. -/
def vuelosPrecios : VuelosResult → Option (List Nat)
  | .ok vs => some (vs.map fun v => v.precio)
  | .respond _ _ => none

/-- The flight numbers of a `/vuelos` result, when it is a 200. -/
def vuelosNumeros : VuelosResult → Option (List String)
  | .ok vs => some (vs.map fun v => v.numeroVuelo)
  | .respond _ _ => none

/-- The prices of a `/hospedaje` result, when it is a 200. -/
def hospedajePrecios : HospedajeResult → Option (List Nat)
  | .ok hs => some (hs.map fun h => h.precio)
  | .respond _ _ => none

/-! ## Helper lemmas -/

/-- The empty string is `isEmpty`. -/
theorem isEmpty_vacia : ("" : String).isEmpty = true := rfl

/-- A nonempty string is not `isEmpty`. -/
theorem isEmpty_eq_false {s : String} (h : s ≠ "") : s.isEmpty = false := by
  rw [Bool.eq_false_iff]
  simp [String.isEmpty_iff, h]

/-- A present, nonempty string parameter is JavaScript-truthy. -/
theorem jsTruthy_some {s : String} (h : s ≠ "") : jsTruthy (some s) = true := by
  simp [jsTruthy, isEmpty_eq_false h]

/-- A string is a substring of any extension of it on the left. -/
theorem toList_infix_append (a s : String) : s.toList <:+: (a ++ s).toList :=
  ⟨a.toList, [], by simp⟩

/-- With default `""`, JavaScript `x || ''` agrees with `Option.getD`. -/
theorem jsOrElse_empty_getD (x : Option String) : jsOrElse x "" = x.getD "" := by
  cases x with
  | none => rfl
  | some s =>
    by_cases h : s = ""
    · subst h; rfl
    · simp [jsOrElse, isEmpty_eq_false h]

/-! ## Claim theorems -/

/-- The spec-side selector always yields one of the four templates. -/
theorem specRecomendaciones_cases (t d : String) :
    specRecomendaciones t d = plantillaNegocio d ∨
    specRecomendaciones t d = plantillaAventura d ∨
    specRecomendaciones t d = plantillaCultural d ∨
    specRecomendaciones t d = plantillaVacaciones d := by
  unfold specRecomendaciones
  split
  · exact Or.inl rfl
  split
  · exact Or.inr (Or.inl rfl)
  split
  · exact Or.inr (Or.inr (Or.inl rfl))
  · exact Or.inr (Or.inr (Or.inr rfl))

/-- C1: for every POST /consejos request with a non-empty `destino`, the
recommendation list is selected from the four fixed templates by
case-insensitive substring match against `tipoViaje` (default
vacaciones), tested in priority order business, adventure, cultural,
first match wins, no match selecting the general-vacation template; the
chosen template has five strings, each with `destino` interpolated. -/
theorem consejos_seleccion_recomendaciones (destino : String)
    (tv ps : Option String) (rho : Nat → Nat) (h : destino ≠ "") :
    consejosRecs (consejosHandler (some destino) tv ps rho) =
      some (specRecomendaciones (tv.getD "vacaciones") destino) ∧
    (specRecomendaciones (tv.getD "vacaciones") destino).length = 5 ∧
    ∀ r ∈ specRecomendaciones (tv.getD "vacaciones") destino,
      destino.toList <:+: r.toList := by
  refine ⟨?_, ?_, ?_⟩
  · simp only [consejosHandler, jsTruthy_some h, Bool.not_true, Bool.false_eq_true,
      if_false, consejosRecs, Option.getD_some, specRecomendaciones,
      plantillaNegocio, plantillaAventura, plantillaCultural, plantillaVacaciones]
  · rcases specRecomendaciones_cases (tv.getD "vacaciones") destino with
      h4 | h4 | h4 | h4 <;> rw [h4] <;>
      simp [plantillaNegocio, plantillaAventura, plantillaCultural,
        plantillaVacaciones]
  · intro r hr
    rcases specRecomendaciones_cases (tv.getD "vacaciones") destino with
      h4 | h4 | h4 | h4 <;> rw [h4] at hr <;>
      simp only [plantillaNegocio, plantillaAventura, plantillaCultural,
        plantillaVacaciones, List.mem_cons, List.not_mem_nil, or_false] at hr <;>
      rcases hr with rfl | rfl | rfl | rfl | rfl <;>
      exact toList_infix_append _ _

/-- C1 witness: the adventure template is selected for destino Paris
with tipoViaje aventura. -/
theorem consejos_seleccion_recomendaciones_testigo :
    ("Paris" : String) ≠ "" ∧
    (consejosRecs (consejosHandler (some "Paris") (some "aventura") none (fun _ => 0)) =
        some (specRecomendaciones ((some "aventura").getD "vacaciones") "Paris") ∧
      (specRecomendaciones ((some "aventura").getD "vacaciones") "Paris").length = 5 ∧
      ∀ r ∈ specRecomendaciones ((some "aventura").getD "vacaciones") "Paris",
        ("Paris" : String).toList <:+: r.toList) :=
  ⟨by decide,
    consejos_seleccion_recomendaciones "Paris" (some "aventura") none (fun _ => 0)
      (by decide)⟩

/-- C5: for every POST /consejos request with a non-empty `destino`, the
budget note is selected by exact case-insensitive match of `presupuesto`
(default medio): bajo and alto select their templates, everything else
the medium template, with `destino` interpolated; the right-hand side
does not mention `tipoViaje`, so the selection is independent of it. -/
theorem consejos_nota_presupuesto (destino : String)
    (tv ps : Option String) (rho : Nat → Nat) (h : destino ≠ "") :
    consejosNota (consejosHandler (some destino) tv ps rho) =
      some (specConsejoPresupuesto (ps.getD "medio") destino) := by
  simp only [consejosHandler, jsTruthy_some h, Bool.not_true, Bool.false_eq_true,
    if_false, consejosNota, Option.getD_some, specConsejoPresupuesto,
    notaBajo, notaAlto, notaMedio]

/-- C5 witness: the low-budget note is selected for destino Paris with
presupuesto bajo, whatever the tipoViaje. -/
theorem consejos_nota_presupuesto_testigo :
    ("Paris" : String) ≠ "" ∧
    consejosNota (consejosHandler (some "Paris") (some "cultural") (some "bajo") (fun _ => 0)) =
      some (specConsejoPresupuesto ((some "bajo").getD "medio") "Paris") :=
  ⟨by decide,
    consejos_nota_presupuesto "Paris" (some "cultural") (some "bajo") (fun _ => 0)
      (by decide)⟩

/-- C2: for every POST /vuelos request with non-empty origen, destino
and fecha and every random source, the response is a 200 with exactly
three offers in the order Avianca, LATAM, Copa Airlines, echoing the
three inputs, with flight numbers AV/LA/CM plus a suffix in 0..999,
prices in [200,500), [180,480) and [220,520) respectively, and the
hard-coded per-airline times, durations, currency and stop counts. -/
theorem vuelos_tres_ofertas (o d f : String) (rho : Nat → Nat)
    (ho : o ≠ "") (hd : d ≠ "") (hf : f ≠ "") :
    vuelosHandler (some o) (some d) (some f) rho =
      VuelosResult.ok
        [ ⟨"Avianca", "AV" ++ toString (rho 0 % 1000), o, d, f,
            "08:30", "10:45", "2h 15m", rho 1 % 300 + 200, "USD", 0⟩,
          ⟨"LATAM", "LA" ++ toString (rho 2 % 1000), o, d, f,
            "12:15", "14:50", "2h 35m", rho 3 % 300 + 180, "USD", 1⟩,
          ⟨"Copa Airlines", "CM" ++ toString (rho 4 % 1000), o, d, f,
            "16:40", "19:10", "2h 30m", rho 5 % 300 + 220, "USD", 0⟩ ] ∧
    rho 0 % 1000 < 1000 ∧ rho 2 % 1000 < 1000 ∧ rho 4 % 1000 < 1000 ∧
    200 ≤ rho 1 % 300 + 200 ∧ rho 1 % 300 + 200 < 500 ∧
    180 ≤ rho 3 % 300 + 180 ∧ rho 3 % 300 + 180 < 480 ∧
    220 ≤ rho 5 % 300 + 220 ∧ rho 5 % 300 + 220 < 520 := by
  refine ⟨?_, ?_, ?_, ?_, ?_, ?_, ?_, ?_, ?_, ?_⟩
  · simp [vuelosHandler, jsTruthy_some ho, jsTruthy_some hd, jsTruthy_some hf]
  all_goals omega

/-- C2 witness: the three offers for Bogota, Lima, 2024-05-01 with the
constant-zero random source. -/
theorem vuelos_tres_ofertas_testigo :
    ("Bogota" : String) ≠ "" ∧ ("Lima" : String) ≠ "" ∧
    ("2024-05-01" : String) ≠ "" ∧
    (vuelosHandler (some "Bogota") (some "Lima") (some "2024-05-01") (fun _ => 0) =
        VuelosResult.ok
          [ ⟨"Avianca", "AV" ++ toString ((fun _ => 0) 0 % 1000), "Bogota", "Lima",
              "2024-05-01", "08:30", "10:45", "2h 15m",
              (fun _ => 0) 1 % 300 + 200, "USD", 0⟩,
            ⟨"LATAM", "LA" ++ toString ((fun _ => 0) 2 % 1000), "Bogota", "Lima",
              "2024-05-01", "12:15", "14:50", "2h 35m",
              (fun _ => 0) 3 % 300 + 180, "USD", 1⟩,
            ⟨"Copa Airlines", "CM" ++ toString ((fun _ => 0) 4 % 1000), "Bogota", "Lima",
              "2024-05-01", "16:40", "19:10", "2h 30m",
              (fun _ => 0) 5 % 300 + 220, "USD", 0⟩ ] ∧
      (fun _ => 0) 0 % 1000 < 1000 ∧ (fun _ => 0) 2 % 1000 < 1000 ∧
      (fun _ => 0) 4 % 1000 < 1000 ∧
      200 ≤ (fun _ => 0) 1 % 300 + 200 ∧ (fun _ => 0) 1 % 300 + 200 < 500 ∧
      180 ≤ (fun _ => 0) 3 % 300 + 180 ∧ (fun _ => 0) 3 % 300 + 180 < 480 ∧
      220 ≤ (fun _ => 0) 5 % 300 + 220 ∧ (fun _ => 0) 5 % 300 + 220 < 520) :=
  ⟨by decide, by decide, by decide,
    vuelos_tres_ofertas "Bogota" "Lima" "2024-05-01" (fun _ => 0)
      (by decide) (by decide) (by decide)⟩

/-- C3: for every GET /hospedaje request with a non-empty ciudad and
every random source, the response is a 200 with exactly three offers in
apartment, hotel, house order, each ubicacion containing ciudad as a
substring, with the fixed per-archetype constants and prices in
[50,150), [80,230) and [120,320) respectively. -/
theorem hospedaje_tres_ofertas (c : String) (fe fs : Option String)
    (rho : Nat → Nat) (h : c ≠ "") :
    hospedajeHandler (some c) fe fs rho =
      HospedajeResult.ok
        [ ⟨"Apartamento Céntrico", "Apartamento entero", "Centro de " ++ c,
            rho 0 % 100 + 50, "USD", true, 2, 1, 4, 4.8, 123,
            "https://via.placeholder.com/300x200?text=Apartamento"⟩,
          ⟨"Hotel Boutique", "Habitación de hotel", "Zona turística de " ++ c,
            rho 1 % 150 + 80, "USD", true, 1, 1, 2, 4.6, 87,
            "https://via.placeholder.com/300x200?text=Hotel"⟩,
          ⟨"Casa Familiar", "Casa entera", "Zona residencial de " ++ c,
            rho 2 % 200 + 120, "USD", true, 3, 2, 6, 4.9, 45,
            "https://via.placeholder.com/300x200?text=Casa"⟩ ] ∧
    50 ≤ rho 0 % 100 + 50 ∧ rho 0 % 100 + 50 < 150 ∧
    80 ≤ rho 1 % 150 + 80 ∧ rho 1 % 150 + 80 < 230 ∧
    120 ≤ rho 2 % 200 + 120 ∧ rho 2 % 200 + 120 < 320 ∧
    c.toList <:+: ("Centro de " ++ c).toList ∧
    c.toList <:+: ("Zona turística de " ++ c).toList ∧
    c.toList <:+: ("Zona residencial de " ++ c).toList := by
  refine ⟨?_, ?_, ?_, ?_, ?_, ?_, ?_,
    toList_infix_append _ _, toList_infix_append _ _, toList_infix_append _ _⟩
  · simp [hospedajeHandler, jsTruthy_some h]
  all_goals omega

/-- C3 witness: the three offers for Lima with the constant-zero random
source. -/
theorem hospedaje_tres_ofertas_testigo :
    ("Lima" : String) ≠ "" ∧
    (hospedajeHandler (some "Lima") none none (fun _ => 0) =
        HospedajeResult.ok
          [ ⟨"Apartamento Céntrico", "Apartamento entero", "Centro de " ++ "Lima",
              (fun _ => 0) 0 % 100 + 50, "USD", true, 2, 1, 4, 4.8, 123,
              "https://via.placeholder.com/300x200?text=Apartamento"⟩,
            ⟨"Hotel Boutique", "Habitación de hotel", "Zona turística de " ++ "Lima",
              (fun _ => 0) 1 % 150 + 80, "USD", true, 1, 1, 2, 4.6, 87,
              "https://via.placeholder.com/300x200?text=Hotel"⟩,
            ⟨"Casa Familiar", "Casa entera", "Zona residencial de " ++ "Lima",
              (fun _ => 0) 2 % 200 + 120, "USD", true, 3, 2, 6, 4.9, 45,
              "https://via.placeholder.com/300x200?text=Casa"⟩ ] ∧
      50 ≤ (fun _ => 0) 0 % 100 + 50 ∧ (fun _ => 0) 0 % 100 + 50 < 150 ∧
      80 ≤ (fun _ => 0) 1 % 150 + 80 ∧ (fun _ => 0) 1 % 150 + 80 < 230 ∧
      120 ≤ (fun _ => 0) 2 % 200 + 120 ∧ (fun _ => 0) 2 % 200 + 120 < 320 ∧
      ("Lima" : String).toList <:+: ("Centro de " ++ "Lima").toList ∧
      ("Lima" : String).toList <:+: ("Zona turística de " ++ "Lima").toList ∧
      ("Lima" : String).toList <:+: ("Zona residencial de " ++ "Lima").toList) :=
  ⟨by decide, hospedaje_tres_ofertas "Lima" none none (fun _ => 0) (by decide)⟩

/-- C4: every request missing a required parameter gets an immediate 400
whose body carries an error field, with no outbound call and no success
payload: GET /wiki and GET /clima without ciudad, POST /vuelos missing
any of origen, destino, fecha, GET /hospedaje without ciudad, and
POST /consejos without destino. -/
theorem parametros_faltantes_400 (k fe fs o d f tv ps : Option String)
    (rho : Nat → Nat) :
    wikiHandler none = WikiStep.respond 400 ⟨"Se requiere el parámetro ciudad", none⟩ ∧
    climaHandler none k = ClimaStep.respond 400 ⟨"Se requiere el parámetro ciudad", none⟩ ∧
    vuelosHandler none d f rho =
      VuelosResult.respond 400 ⟨"Se requieren los parámetros origen, destino y fecha", none⟩ ∧
    vuelosHandler o none f rho =
      VuelosResult.respond 400 ⟨"Se requieren los parámetros origen, destino y fecha", none⟩ ∧
    vuelosHandler o d none rho =
      VuelosResult.respond 400 ⟨"Se requieren los parámetros origen, destino y fecha", none⟩ ∧
    hospedajeHandler none fe fs rho =
      HospedajeResult.respond 400 ⟨"Se requiere el parámetro ciudad", none⟩ ∧
    consejosHandler none tv ps rho =
      ConsejosResult.respond 400 ⟨"Se requiere el parámetro destino", none⟩ := by
  refine ⟨rfl, rfl, ?_, ?_, ?_, rfl, rfl⟩ <;>
    simp [vuelosHandler, jsTruthy]

/-- C10: supplying a required parameter as the empty string is treated
like omitting it (JavaScript falsiness) and yields the same 400 on all
five endpoints. -/
theorem cadena_vacia_400 (k fe fs o d f tv ps : Option String)
    (rho : Nat → Nat) :
    wikiHandler (some "") = WikiStep.respond 400 ⟨"Se requiere el parámetro ciudad", none⟩ ∧
    climaHandler (some "") k = ClimaStep.respond 400 ⟨"Se requiere el parámetro ciudad", none⟩ ∧
    vuelosHandler (some "") d f rho =
      VuelosResult.respond 400 ⟨"Se requieren los parámetros origen, destino y fecha", none⟩ ∧
    vuelosHandler o (some "") f rho =
      VuelosResult.respond 400 ⟨"Se requieren los parámetros origen, destino y fecha", none⟩ ∧
    vuelosHandler o d (some "") rho =
      VuelosResult.respond 400 ⟨"Se requieren los parámetros origen, destino y fecha", none⟩ ∧
    hospedajeHandler (some "") fe fs rho =
      HospedajeResult.respond 400 ⟨"Se requiere el parámetro ciudad", none⟩ ∧
    consejosHandler (some "") tv ps rho =
      ConsejosResult.respond 400 ⟨"Se requiere el parámetro destino", none⟩ := by
  refine ⟨rfl, rfl, ?_, ?_, ?_, rfl, rfl⟩ <;>
    simp [vuelosHandler, jsTruthy, isEmpty_vacia]

/-- C6: POST /consejos is a pure function of its input body, independent
of the random source; POST /vuelos and GET /hospedaje are not: for a
fixed valid input, two random-source values give different prices and
different flight numbers. -/
theorem consejos_puro_mocks_aleatorios :
    (∀ (dq tv ps : Option String) (rho rho2 : Nat → Nat),
      consejosHandler dq tv ps rho = consejosHandler dq tv ps rho2) ∧
    vuelosPrecios
        (vuelosHandler (some "Bogota") (some "Lima") (some "2024-05-01") (fun _ => 0)) ≠
      vuelosPrecios
        (vuelosHandler (some "Bogota") (some "Lima") (some "2024-05-01") (fun _ => 1)) ∧
    vuelosNumeros
        (vuelosHandler (some "Bogota") (some "Lima") (some "2024-05-01") (fun _ => 0)) ≠
      vuelosNumeros
        (vuelosHandler (some "Bogota") (some "Lima") (some "2024-05-01") (fun _ => 1)) ∧
    hospedajePrecios (hospedajeHandler (some "Lima") none none (fun _ => 0)) ≠
      hospedajePrecios (hospedajeHandler (some "Lima") none none (fun _ => 1)) :=
  ⟨fun _ _ _ _ _ => rfl, by decide, by decide, by decide⟩

/-- C7: for a non-empty ciudad and a fixed random source, the
GET /hospedaje response does not depend on fechaEntrada and fechaSalida. -/
theorem hospedaje_ignora_fechas (c : String) (fe fs fe2 fs2 : Option String)
    (rho : Nat → Nat) (h : c ≠ "") :
    hospedajeHandler (some c) fe fs rho = hospedajeHandler (some c) fe2 fs2 rho :=
  rfl

/-- C7 witness: present and absent check-in and check-out dates give the
same offers for Lima. -/
theorem hospedaje_ignora_fechas_testigo :
    ("Lima" : String) ≠ "" ∧
    hospedajeHandler (some "Lima") (some "2024-05-01") (some "2024-05-10") (fun _ => 0) =
      hospedajeHandler (some "Lima") none none (fun _ => 0) :=
  ⟨by decide,
    hospedaje_ignora_fechas "Lima" (some "2024-05-01") (some "2024-05-10") none none
      (fun _ => 0) (by decide)⟩

/-- C8 counterexample: with ciudad Lima and no configured API key, the
/clima 500 response is the fixed credential error with no `mensaje`
field; it does not carry an underlying message as the claim states. -/
theorem clima_credencial_sin_mensaje :
    climaHandler (some "Lima") none =
      ClimaStep.respond 500 ⟨"API key de OpenWeather no configurada", none⟩ ∧
    (climaStepMensaje (climaHandler (some "Lima") none)).isSome = false := by
  exact ⟨rfl, rfl⟩

/-- C8 amended: every failure other than missing required input is a
500; the catch paths of all five endpoints echo the underlying message
in a `mensaje` field, but the missing-credential (absent or empty key)
500 of /clima carries only a fixed error text and no `mensaje`. -/
theorem errores_500_con_mensaje (c m : String) (h : c ≠ "") :
    climaHandler (some c) none =
      ClimaStep.respond 500 ⟨"API key de OpenWeather no configurada", none⟩ ∧
    climaHandler (some c) (some "") =
      ClimaStep.respond 500 ⟨"API key de OpenWeather no configurada", none⟩ ∧
    wikiOnError m = WikiStep.respond 500 ⟨"Error al consultar Wikipedia", some m⟩ ∧
    climaOnError m = ClimaStep.respond 500 ⟨"Error al consultar el clima", some m⟩ ∧
    vuelosOnError m = VuelosResult.respond 500 ⟨"Error al buscar vuelos", some m⟩ ∧
    hospedajeOnError m =
      HospedajeResult.respond 500 ⟨"Error al buscar hospedaje", some m⟩ ∧
    consejosOnError m =
      ConsejosResult.respond 500 ⟨"Error al generar recomendaciones", some m⟩ := by
  refine ⟨?_, ?_, rfl, rfl, rfl, rfl, rfl⟩ <;>
    simp [climaHandler, jsTruthy_some h, jsTruthy, isEmpty_vacia, isEmpty_eq_false h]

/-- C8 amended witness: the credential 500 and the echoing catch paths
at ciudad Lima and message ECONNREFUSED. -/
theorem errores_500_con_mensaje_testigo :
    ("Lima" : String) ≠ "" ∧
    (climaHandler (some "Lima") none =
        ClimaStep.respond 500 ⟨"API key de OpenWeather no configurada", none⟩ ∧
      climaHandler (some "Lima") (some "") =
        ClimaStep.respond 500 ⟨"API key de OpenWeather no configurada", none⟩ ∧
      wikiOnError "ECONNREFUSED" =
        WikiStep.respond 500 ⟨"Error al consultar Wikipedia", some "ECONNREFUSED"⟩ ∧
      climaOnError "ECONNREFUSED" =
        ClimaStep.respond 500 ⟨"Error al consultar el clima", some "ECONNREFUSED"⟩ ∧
      vuelosOnError "ECONNREFUSED" =
        VuelosResult.respond 500 ⟨"Error al buscar vuelos", some "ECONNREFUSED"⟩ ∧
      hospedajeOnError "ECONNREFUSED" =
        HospedajeResult.respond 500 ⟨"Error al buscar hospedaje", some "ECONNREFUSED"⟩ ∧
      consejosOnError "ECONNREFUSED" =
        ConsejosResult.respond 500
          ⟨"Error al generar recomendaciones", some "ECONNREFUSED"⟩) :=
  ⟨by decide, errores_500_con_mensaje "Lima" "ECONNREFUSED" (by decide)⟩

/-- C9 counterexample: on an upstream summary whose thumbnail is present
with an empty source URL, the handler maps imagen to null while the
claim maps it to the empty-string source. -/
theorem wiki_imagen_fuente_vacia :
    wikiOnSuccess
        ⟨"Lima", "Capital del Perú",
          some ⟨some ⟨"https://es.wikipedia.org/wiki/Lima"⟩⟩, some ⟨""⟩⟩ ≠
      specWikiSummaryReclamo
        ⟨"Lima", "Capital del Perú",
          some ⟨some ⟨"https://es.wikipedia.org/wiki/Lima"⟩⟩, some ⟨""⟩⟩ := by
  decide

/-- C9 amended: the /wiki success mapping takes titulo and extracto from
the upstream title and extract, url from the desktop page URL with the
empty string when absent, and imagen from the thumbnail source with null
when the thumbnail is absent or its source is the empty string. -/
theorem wiki_mapeo_exito (data : WikiData) :
    wikiOnSuccess data = specWikiSummaryCorregida data := by
  rcases data with ⟨t, e, cu, th⟩
  simp only [wikiOnSuccess, specWikiSummaryCorregida, jsOrElse_empty_getD,
    WikiSummary.mk.injEq, true_and, and_true]
  cases th with
  | none => rfl
  | some tt =>
    by_cases hs : tt.source = ""
    · simp [jsOrNull, hs, isEmpty_vacia]
    · simp [jsOrNull, isEmpty_eq_false hs, hs]
